import Mathlib

/-!
Shallow embedding of `src/whisper_ctx.rs` from the `whisper-rs` crate.

The crate wraps an opaque native speech engine (`whisper_rs_sys`).  Every
native call returns either an integer status sentinel or a pointer; the
wrapper consults three boolean pipeline flags before calling into the
engine.  We embed each public method as a pure function whose extra
arguments stand for the values the native engine would produce if it were
invoked (status sentinels, buffer contents, reported lengths, handles).
Each result records the returned value or error, the post-call context
state, and whether the native engine was actually invoked on that path.
-/

namespace WhisperRs

/-- Errors of `crate::error::WhisperError`.  The enum itself lives in
`src/error.rs`, which is not part of this extract; the variants are taken
from their uses in `whisper_ctx.rs`.  `NulError` models the conversion
error produced by the `CString::new(path)?` line in `WhisperContext::new`
(Rust's `CString::new` fails exactly when the byte string contains a NUL
byte). -/
inductive WhisperError where
  | InitError
  | NulError
  | InvalidThreadCount
  | SpectrogramNotInitialized
  | EncodeNotComplete
  | UnableToCalculateSpectrogram
  | UnableToCalculateEvaluation
  | InvalidMelBands
  | InvalidText
  | NullPointer
  | FailedToEncode
  | FailedToDecode
  | GenericError (code : Int)
deriving DecidableEq, Repr

/-- The `WhisperContext` struct (whisper_ctx.rs lines 11-19): a raw native
handle plus three boolean pipeline flags.  The handle is modelled as a
`Nat`, with `0` standing for the null pointer. -/
structure WhisperContext where
  ctx : Nat
  spectrogram_initialized : Bool
  encode_complete : Bool
  decode_once : Bool
deriving DecidableEq, Repr

/-- Outcome of a call: a returned value, a returned `WhisperError`, or a
fatal process termination (the `assert_eq!` / `std::process::abort` path in
`lang_detect`). -/
inductive Ret (α : Type) where
  | ok : α → Ret α
  | err : WhisperError → Ret α
  | abort : Ret α
deriving DecidableEq, Repr

/-- Result of one method call on a context: the `Result` value, the state
of the context after the call, and whether the native engine was invoked
on this path. -/
structure OpResult (α : Type) where
  ret : Ret α
  state : WhisperContext
  engineCalled : Bool
deriving DecidableEq, Repr

/-- Result of `WhisperContext::new` (no pre-existing context state). -/
structure NewResult where
  ret : Ret WhisperContext
  engineCalled : Bool
deriving DecidableEq, Repr

/-- The decoding configuration (`crate::whisper_params::FullParams`).  It
is opaque to `whisper_ctx.rs`: its `fp` field is passed through to the
native engine unmodified, so we model it as an abstract payload. -/
structure FullParams where
  fp : Nat
deriving DecidableEq, Repr

/-- The context value built on the success path of `WhisperContext::new` /
`new_from_buffer`: the engine handle with all three flags `false`. -/
def freshContext (handle : Nat) : WhisperContext :=
  { ctx := handle
    spectrogram_initialized := false
    encode_complete := false
    decode_once := false }

/-- Rust's `as usize` cast from a (signed) native integer, on a 64-bit
target: reduce modulo `2^64`. -/
def usizeOfInt (i : Int) : Nat :=
  (i % (2 : Int) ^ 64).toNat

/-- `WhisperContext::new` (lines 32-45).  `path` is the byte string of the
path argument; `engineHandle` is the raw handle `whisper_init_from_file`
would return (`0` = null).  `CString::new(path)?` fails, before any native
call, exactly when `path` contains a NUL byte. -/
def WhisperContext.new (path : List Nat) (engineHandle : Nat) : NewResult :=
  if path.contains 0 then
    { ret := .err .NulError, engineCalled := false }
  else if engineHandle = 0 then
    { ret := .err .InitError, engineCalled := true }
  else
    { ret := .ok (freshContext engineHandle), engineCalled := true }

/-- `WhisperContext::pcm_to_mel` (lines 86-106).  `engineRet` is the
sentinel `whisper_pcm_to_mel` would return if invoked. -/
def WhisperContext.pcm_to_mel (self : WhisperContext) (_pcm : List Float)
    (threads : Nat) (engineRet : Int) : OpResult Unit :=
  if threads < 1 then
    { ret := .err .InvalidThreadCount, state := self, engineCalled := false }
  else if engineRet = -1 then
    { ret := .err .UnableToCalculateSpectrogram, state := self, engineCalled := true }
  else if engineRet = 0 then
    { ret := .ok ()
      state := { self with spectrogram_initialized := true }
      engineCalled := true }
  else
    { ret := .err (.GenericError engineRet), state := self, engineCalled := true }

/-- `WhisperContext::set_mel` (lines 124-141).  `engineRet` is the sentinel
`whisper_set_mel` would return. -/
def WhisperContext.set_mel (self : WhisperContext) (_data : List Float)
    (engineRet : Int) : OpResult Unit :=
  if engineRet = -1 then
    { ret := .err .InvalidMelBands, state := self, engineCalled := true }
  else if engineRet = 0 then
    { ret := .ok ()
      state := { self with spectrogram_initialized := true }
      engineCalled := true }
  else
    { ret := .err (.GenericError engineRet), state := self, engineCalled := true }

/-- `WhisperContext::encode` (lines 155-172).  The spectrogram gate is
checked first, then the thread count, and only then is the engine
invoked. -/
def WhisperContext.encode (self : WhisperContext) (_offset : Nat)
    (threads : Nat) (engineRet : Int) : OpResult Unit :=
  if self.spectrogram_initialized = false then
    { ret := .err .SpectrogramNotInitialized, state := self, engineCalled := false }
  else if threads < 1 then
    { ret := .err .InvalidThreadCount, state := self, engineCalled := false }
  else if engineRet = -1 then
    { ret := .err .UnableToCalculateEvaluation, state := self, engineCalled := true }
  else if engineRet = 0 then
    { ret := .ok ()
      state := { self with encode_complete := true }
      engineCalled := true }
  else
    { ret := .err (.GenericError engineRet), state := self, engineCalled := true }

/-- `WhisperContext::decode` (lines 189-218).  The encode gate is checked
first, then the thread count, and only then is the engine invoked.
`tokens` are `WhisperToken` (i32) values. -/
def WhisperContext.decode (self : WhisperContext) (_tokens : List Int)
    (_n_past : Nat) (threads : Nat) (engineRet : Int) : OpResult Unit :=
  if self.encode_complete = false then
    { ret := .err .EncodeNotComplete, state := self, engineCalled := false }
  else if threads < 1 then
    { ret := .err .InvalidThreadCount, state := self, engineCalled := false }
  else if engineRet = -1 then
    { ret := .err .UnableToCalculateEvaluation, state := self, engineCalled := true }
  else if engineRet = 0 then
    { ret := .ok ()
      state := { self with decode_once := true }
      engineCalled := true }
  else
    { ret := .err (.GenericError engineRet), state := self, engineCalled := true }

/-- `WhisperContext::tokenize` (lines 230-252).  `engineRet` is the
sentinel of `whisper_tokenize`; when it is not `-1` the vector length is
set to `ret` and `written i` stands for the token the engine wrote at
index `i`. -/
def WhisperContext.tokenize (self : WhisperContext) (_text : String)
    (_max_tokens : Nat) (engineRet : Int) (written : Nat → Int) :
    OpResult (List Int) :=
  if engineRet = -1 then
    { ret := .err .InvalidText, state := self, engineCalled := true }
  else
    { ret := .ok ((List.range engineRet.toNat).map written)
      state := self
      engineCalled := true }

/-- `WhisperContext::lang_detect` (lines 267-304).  `langMaxId` is the
value of `whisper_lang_max_id` (a fixed engine constant, a C `int`);
the probability vector is pre-sized to `langMaxId as usize + 1` zeros.
`engineRet` is the sentinel of `whisper_lang_auto_detect`; `written i`
stands for the buffer contents at index `i` after the call.  When
`engineRet` is neither `-1` nor (cast to `usize`) the pre-sized length,
the `assert_eq!` (backed by `std::process::abort`) terminates the
process. -/
def WhisperContext.lang_detect (self : WhisperContext) (_offset_ms : Nat)
    (threads : Nat) (langMaxId : Int) (engineRet : Int)
    (written : Nat → Float) : OpResult (List Float) :=
  if self.spectrogram_initialized = false then
    { ret := .err .SpectrogramNotInitialized, state := self, engineCalled := false }
  else if threads < 1 then
    { ret := .err .InvalidThreadCount, state := self, engineCalled := false }
  else if engineRet = -1 then
    { ret := .err .UnableToCalculateEvaluation, state := self, engineCalled := true }
  else if usizeOfInt engineRet = usizeOfInt langMaxId + 1 then
    { ret := .ok ((List.range (usizeOfInt langMaxId + 1)).map written)
      state := self
      engineCalled := true }
  else
    { ret := .abort, state := self, engineCalled := true }

/-- The matrix built by the copy loop of `get_logits` (lines 388-399):
`n_tokens` rows of `n_vocab` columns; element `(i, j)` is read from the
engine buffer at offset `i * n_vocab + j`.  Rust's `for i in 0..n` over a
`c_int` runs zero iterations when `n ≤ 0`. -/
def buildLogits (buffer : Int → Float) (n_vocab n_tokens : Int) :
    List (List Float) :=
  (List.range n_tokens.toNat).map fun (i : Nat) =>
    (List.range n_vocab.toNat).map fun (j : Nat) =>
      buffer (i * n_vocab + j)

/-- `WhisperContext::get_logits` (lines 379-401).  `ptrNull` says whether
`whisper_get_logits` returns a null pointer; `buffer i` is the value at
offset `i` of the returned buffer; `n_vocab` and `n_tokens` are the values
reported by `whisper_n_vocab` and `whisper_full_n_tokens(segment)`. -/
def WhisperContext.get_logits (self : WhisperContext) (_segment : Int)
    (ptrNull : Bool) (buffer : Int → Float) (n_vocab n_tokens : Int) :
    OpResult (List (List Float)) :=
  if self.spectrogram_initialized = false then
    { ret := .err .SpectrogramNotInitialized, state := self, engineCalled := false }
  else if ptrNull then
    { ret := .err .NullPointer, state := self, engineCalled := true }
  else
    { ret := .ok (buildLogits buffer n_vocab n_tokens)
      state := self
      engineCalled := true }

/-- `WhisperContext::full` (lines 522-537).  `engineRet` is the sentinel
of `whisper_full`.  No pipeline flag is read or written. -/
def WhisperContext.full (self : WhisperContext) (_params : FullParams)
    (_data : List Float) (engineRet : Int) : OpResult Int :=
  if engineRet = -1 then
    { ret := .err .UnableToCalculateSpectrogram, state := self, engineCalled := true }
  else if engineRet = 7 then
    { ret := .err .FailedToEncode, state := self, engineCalled := true }
  else if engineRet = 8 then
    { ret := .err .FailedToDecode, state := self, engineCalled := true }
  else if engineRet = 0 then
    { ret := .ok engineRet, state := self, engineCalled := true }
  else
    { ret := .err (.GenericError engineRet), state := self, engineCalled := true }

/-- `WhisperContext::full_parallel` (lines 554-582).  Same sentinel
translation as `full`; `0` is returned both on success and when some
sub-context failed to initialize (documented caveat in the source). -/
def WhisperContext.full_parallel (self : WhisperContext)
    (_params : FullParams) (_data : List Float) (_n_processors : Int)
    (engineRet : Int) : OpResult Int :=
  if engineRet = -1 then
    { ret := .err .UnableToCalculateSpectrogram, state := self, engineCalled := true }
  else if engineRet = 7 then
    { ret := .err .FailedToEncode, state := self, engineCalled := true }
  else if engineRet = 8 then
    { ret := .err .FailedToDecode, state := self, engineCalled := true }
  else if engineRet = 0 then
    { ret := .ok engineRet, state := self, engineCalled := true }
  else
    { ret := .err (.GenericError engineRet), state := self, engineCalled := true }

/-- Pointwise order on the three pipeline flags: no flag that is `true` in
`a` is `false` in `b`. -/
def flagsLe (a b : WhisperContext) : Prop :=
  (a.spectrogram_initialized = true → b.spectrogram_initialized = true) ∧
  (a.encode_complete = true → b.encode_complete = true) ∧
  (a.decode_once = true → b.decode_once = true)

theorem flagsLe_refl (a : WhisperContext) : flagsLe a a :=
  ⟨fun h => h, fun h => h, fun h => h⟩

/-- Claim C1: on a context whose `spectrogram_initialized` flag is false,
`encode` returns the `SpectrogramNotInitialized` precondition error, does
not invoke the native engine, and leaves the context (in particular all
three pipeline flags) unchanged, for every offset, thread count and
engine sentinel. -/
theorem encode_gated_on_spectrogram (self : WhisperContext)
    (offset threads : Nat) (engineRet : Int)
    (h : self.spectrogram_initialized = false) :
    (self.encode offset threads engineRet).ret
        = .err .SpectrogramNotInitialized ∧
    (self.encode offset threads engineRet).engineCalled = false ∧
    (self.encode offset threads engineRet).state = self := by
  simp [WhisperContext.encode, h]

/-- Witness for C1 at a concrete fresh context. -/
theorem encode_gated_on_spectrogram_w :
    ((freshContext 1).encode 0 4 0).ret = .err .SpectrogramNotInitialized ∧
    ((freshContext 1).encode 0 4 0).engineCalled = false ∧
    ((freshContext 1).encode 0 4 0).state = freshContext 1 :=
  encode_gated_on_spectrogram (freshContext 1) 0 4 0 rfl

/-- Claim C2: `decode` on a context whose `encode_complete` flag is false
returns `EncodeNotComplete` without invoking the native engine and without
changing the state, for all token slices, past-token counts, thread counts
and engine sentinels; and `lang_detect` and `get_logits` each return
`SpectrogramNotInitialized` without invoking the native engine whenever
`spectrogram_initialized` is false. -/
theorem decode_lang_logits_gates :
    (∀ (self : WhisperContext) (tokens : List Int) (n_past threads : Nat)
        (engineRet : Int),
      self.encode_complete = false →
      (self.decode tokens n_past threads engineRet).ret
          = .err .EncodeNotComplete ∧
      (self.decode tokens n_past threads engineRet).engineCalled = false ∧
      (self.decode tokens n_past threads engineRet).state = self) ∧
    (∀ (self : WhisperContext) (offset_ms threads : Nat)
        (langMaxId engineRet : Int) (written : Nat → Float),
      self.spectrogram_initialized = false →
      (self.lang_detect offset_ms threads langMaxId engineRet written).ret
          = .err .SpectrogramNotInitialized ∧
      (self.lang_detect offset_ms threads langMaxId engineRet
          written).engineCalled = false ∧
      (self.lang_detect offset_ms threads langMaxId engineRet written).state
          = self) ∧
    (∀ (self : WhisperContext) (segment : Int) (ptrNull : Bool)
        (buffer : Int → Float) (n_vocab n_tokens : Int),
      self.spectrogram_initialized = false →
      (self.get_logits segment ptrNull buffer n_vocab n_tokens).ret
          = .err .SpectrogramNotInitialized ∧
      (self.get_logits segment ptrNull buffer n_vocab n_tokens).engineCalled
          = false ∧
      (self.get_logits segment ptrNull buffer n_vocab n_tokens).state
          = self) := by
  refine ⟨fun self tokens n_past threads engineRet h => ?_,
          fun self offset_ms threads langMaxId engineRet written h => ?_,
          fun self segment ptrNull buffer n_vocab n_tokens h => ?_⟩
  · simp [WhisperContext.decode, h]
  · simp [WhisperContext.lang_detect, h]
  · simp [WhisperContext.get_logits, h]

/-- Witness for C2 at concrete fresh contexts. -/
theorem decode_lang_logits_gates_w :
    ((freshContext 1).decode [] 0 1 0).ret = .err .EncodeNotComplete ∧
    ((freshContext 1).lang_detect 0 1 98 0 (fun _ => 0.0)).ret
        = .err .SpectrogramNotInitialized ∧
    ((freshContext 1).get_logits 0 false (fun _ => 0.0) 5 3).ret
        = .err .SpectrogramNotInitialized :=
  ⟨(decode_lang_logits_gates.1 (freshContext 1) [] 0 1 0 rfl).1,
   (decode_lang_logits_gates.2.1 (freshContext 1) 0 1 98 0
      (fun _ => 0.0) rfl).1,
   (decode_lang_logits_gates.2.2 (freshContext 1) 0 false
      (fun _ => 0.0) 5 3 rfl).1⟩

/-- Claim C3 counterexample: the claim says every gated operation returns
the invalid-thread-count error on `threads = 0` regardless of pipeline
state; but on a fresh context (gate not satisfied) `encode` with
`threads = 0` returns the spectrogram gate error instead, because the gate
is checked before the thread count. -/
theorem thread_gate_order_cex :
    ((freshContext 1).encode 0 0 0).ret = .err .SpectrogramNotInitialized ∧
    ((freshContext 1).encode 0 0 0).ret ≠ .err .InvalidThreadCount := by
  refine ⟨rfl, ?_⟩
  decide

/-- Claim C3 as amended: for every thread count `t < 1`, `pcm_to_mel`
always returns `InvalidThreadCount` without invoking the native layer;
`encode`, `decode` and `lang_detect` return `InvalidThreadCount` without
invoking the native layer whenever their pipeline-gate precondition is
satisfied; and in every pipeline state each of the four operations
returns some error with the native layer not invoked and the state
unchanged. -/
theorem thread_count_rejected :
    (∀ (self : WhisperContext) (pcm : List Float) (threads : Nat)
        (engineRet : Int), threads < 1 →
      (self.pcm_to_mel pcm threads engineRet).ret
          = .err .InvalidThreadCount ∧
      (self.pcm_to_mel pcm threads engineRet).engineCalled = false ∧
      (self.pcm_to_mel pcm threads engineRet).state = self) ∧
    (∀ (self : WhisperContext) (offset threads : Nat) (engineRet : Int),
      threads < 1 → self.spectrogram_initialized = true →
      (self.encode offset threads engineRet).ret
          = .err .InvalidThreadCount ∧
      (self.encode offset threads engineRet).engineCalled = false ∧
      (self.encode offset threads engineRet).state = self) ∧
    (∀ (self : WhisperContext) (tokens : List Int) (n_past threads : Nat)
        (engineRet : Int),
      threads < 1 → self.encode_complete = true →
      (self.decode tokens n_past threads engineRet).ret
          = .err .InvalidThreadCount ∧
      (self.decode tokens n_past threads engineRet).engineCalled = false ∧
      (self.decode tokens n_past threads engineRet).state = self) ∧
    (∀ (self : WhisperContext) (offset_ms threads : Nat)
        (langMaxId engineRet : Int) (written : Nat → Float),
      threads < 1 → self.spectrogram_initialized = true →
      (self.lang_detect offset_ms threads langMaxId engineRet written).ret
          = .err .InvalidThreadCount ∧
      (self.lang_detect offset_ms threads langMaxId engineRet
          written).engineCalled = false ∧
      (self.lang_detect offset_ms threads langMaxId engineRet written).state
          = self) ∧
    (∀ (self : WhisperContext) (offset threads : Nat) (engineRet : Int),
      threads < 1 →
      (∃ e, (self.encode offset threads engineRet).ret = .err e) ∧
      (self.encode offset threads engineRet).engineCalled = false ∧
      (self.encode offset threads engineRet).state = self) ∧
    (∀ (self : WhisperContext) (tokens : List Int) (n_past threads : Nat)
        (engineRet : Int), threads < 1 →
      (∃ e, (self.decode tokens n_past threads engineRet).ret = .err e) ∧
      (self.decode tokens n_past threads engineRet).engineCalled = false ∧
      (self.decode tokens n_past threads engineRet).state = self) ∧
    (∀ (self : WhisperContext) (offset_ms threads : Nat)
        (langMaxId engineRet : Int) (written : Nat → Float),
      threads < 1 →
      (∃ e, (self.lang_detect offset_ms threads langMaxId engineRet
          written).ret = .err e) ∧
      (self.lang_detect offset_ms threads langMaxId engineRet
          written).engineCalled = false ∧
      (self.lang_detect offset_ms threads langMaxId engineRet written).state
          = self) := by
  refine ⟨fun self pcm threads engineRet hlt => ?_,
          fun self offset threads engineRet hlt hg => ?_,
          fun self tokens n_past threads engineRet hlt hg => ?_,
          fun self offset_ms threads langMaxId engineRet written hlt hg => ?_,
          fun self offset threads engineRet hlt => ?_,
          fun self tokens n_past threads engineRet hlt => ?_,
          fun self offset_ms threads langMaxId engineRet written hlt => ?_⟩
  · simp [WhisperContext.pcm_to_mel, hlt]
  · simp [WhisperContext.encode, hlt, hg]
  · simp [WhisperContext.decode, hlt, hg]
  · simp [WhisperContext.lang_detect, hlt, hg]
  · cases hs : self.spectrogram_initialized <;>
      simp [WhisperContext.encode, hs, hlt]
  · cases hs : self.encode_complete <;>
      simp [WhisperContext.decode, hs, hlt]
  · cases hs : self.spectrogram_initialized <;>
      simp [WhisperContext.lang_detect, hs, hlt]

/-- Witness for the amended C3 at concrete inputs. -/
theorem thread_count_rejected_w :
    ((freshContext 1).pcm_to_mel [] 0 0).ret = .err .InvalidThreadCount ∧
    ((WhisperContext.mk 1 true false false).encode 0 0 0).ret
        = .err .InvalidThreadCount ∧
    ((WhisperContext.mk 1 true true false).decode [] 0 0 0).ret
        = .err .InvalidThreadCount ∧
    ((WhisperContext.mk 1 true false false).lang_detect 0 0 98 0
        (fun _ => 0.0)).ret = .err .InvalidThreadCount ∧
    ((freshContext 1).encode 0 0 0).engineCalled = false :=
  ⟨(thread_count_rejected.1 (freshContext 1) [] 0 0 (by decide)).1,
   (thread_count_rejected.2.1 (WhisperContext.mk 1 true false false) 0 0 0
      (by decide) rfl).1,
   (thread_count_rejected.2.2.1 (WhisperContext.mk 1 true true false) [] 0 0 0
      (by decide) rfl).1,
   (thread_count_rejected.2.2.2.1 (WhisperContext.mk 1 true false false) 0 0 98
      0 (fun _ => 0.0) (by decide) rfl).1,
   (thread_count_rejected.2.2.2.2.1 (freshContext 1) 0 0 0 (by decide)).2.1⟩

/-- Claim C4: the pipeline gate is monotone.  A successful `pcm_to_mel` or
`set_mel` leaves `spectrogram_initialized` true, a successful `encode`
leaves `encode_complete` true, and no operation — in particular no failed
call — resets any of the three flags from true back to false. -/
theorem pipeline_flags_monotone :
    (∀ (self : WhisperContext) (pcm : List Float) (threads : Nat)
        (engineRet : Int),
      flagsLe self (self.pcm_to_mel pcm threads engineRet).state) ∧
    (∀ (self : WhisperContext) (data : List Float) (engineRet : Int),
      flagsLe self (self.set_mel data engineRet).state) ∧
    (∀ (self : WhisperContext) (offset threads : Nat) (engineRet : Int),
      flagsLe self (self.encode offset threads engineRet).state) ∧
    (∀ (self : WhisperContext) (tokens : List Int) (n_past threads : Nat)
        (engineRet : Int),
      flagsLe self (self.decode tokens n_past threads engineRet).state) ∧
    (∀ (self : WhisperContext) (text : String) (max_tokens : Nat)
        (engineRet : Int) (written : Nat → Int),
      flagsLe self (self.tokenize text max_tokens engineRet written).state) ∧
    (∀ (self : WhisperContext) (offset_ms threads : Nat)
        (langMaxId engineRet : Int) (written : Nat → Float),
      flagsLe self
        (self.lang_detect offset_ms threads langMaxId engineRet
          written).state) ∧
    (∀ (self : WhisperContext) (segment : Int) (ptrNull : Bool)
        (buffer : Int → Float) (n_vocab n_tokens : Int),
      flagsLe self
        (self.get_logits segment ptrNull buffer n_vocab n_tokens).state) ∧
    (∀ (self : WhisperContext) (params : FullParams) (data : List Float)
        (engineRet : Int),
      flagsLe self (self.full params data engineRet).state) ∧
    (∀ (self : WhisperContext) (params : FullParams) (data : List Float)
        (n_processors engineRet : Int),
      flagsLe self
        (self.full_parallel params data n_processors engineRet).state) ∧
    (∀ (self : WhisperContext) (pcm : List Float) (threads : Nat)
        (engineRet : Int),
      (self.pcm_to_mel pcm threads engineRet).ret = .ok () →
      (self.pcm_to_mel pcm threads
          engineRet).state.spectrogram_initialized = true) ∧
    (∀ (self : WhisperContext) (data : List Float) (engineRet : Int),
      (self.set_mel data engineRet).ret = .ok () →
      (self.set_mel data engineRet).state.spectrogram_initialized = true) ∧
    (∀ (self : WhisperContext) (offset threads : Nat) (engineRet : Int),
      (self.encode offset threads engineRet).ret = .ok () →
      (self.encode offset threads engineRet).state.encode_complete
          = true) := by
  refine ⟨fun self pcm threads engineRet => ?_,
          fun self data engineRet => ?_,
          fun self offset threads engineRet => ?_,
          fun self tokens n_past threads engineRet => ?_,
          fun self text max_tokens engineRet written => ?_,
          fun self offset_ms threads langMaxId engineRet written => ?_,
          fun self segment ptrNull buffer n_vocab n_tokens => ?_,
          fun self params data engineRet => ?_,
          fun self params data n_processors engineRet => ?_,
          fun self pcm threads engineRet h => ?_,
          fun self data engineRet h => ?_,
          fun self offset threads engineRet h => ?_⟩
  · unfold WhisperContext.pcm_to_mel
    split_ifs <;> first
      | exact flagsLe_refl self
      | exact ⟨fun _ => rfl, fun h => h, fun h => h⟩
  · unfold WhisperContext.set_mel
    split_ifs <;> first
      | exact flagsLe_refl self
      | exact ⟨fun _ => rfl, fun h => h, fun h => h⟩
  · unfold WhisperContext.encode
    split_ifs <;> first
      | exact flagsLe_refl self
      | exact ⟨fun h => h, fun _ => rfl, fun h => h⟩
  · unfold WhisperContext.decode
    split_ifs <;> first
      | exact flagsLe_refl self
      | exact ⟨fun h => h, fun h => h, fun _ => rfl⟩
  · unfold WhisperContext.tokenize
    split_ifs <;> exact flagsLe_refl self
  · unfold WhisperContext.lang_detect
    split_ifs <;> exact flagsLe_refl self
  · unfold WhisperContext.get_logits
    split_ifs <;> exact flagsLe_refl self
  · unfold WhisperContext.full
    split_ifs <;> exact flagsLe_refl self
  · unfold WhisperContext.full_parallel
    split_ifs <;> exact flagsLe_refl self
  · unfold WhisperContext.pcm_to_mel at h ⊢
    split_ifs at h ⊢
    simp_all
  · unfold WhisperContext.set_mel at h ⊢
    split_ifs at h ⊢
    simp_all
  · unfold WhisperContext.encode at h ⊢
    split_ifs at h ⊢
    simp_all

/-- Witness for C4 at concrete inputs: a context with all flags set keeps
them through a failed decode, and a successful `pcm_to_mel` on a fresh
context sets the spectrogram flag. -/
theorem pipeline_flags_monotone_w :
    ((WhisperContext.mk 1 true true true).decode [] 0 1 (-1)).state.decode_once
        = true ∧
    ((freshContext 1).pcm_to_mel [] 1 0).state.spectrogram_initialized
        = true :=
  ⟨(pipeline_flags_monotone.2.2.2.1 (WhisperContext.mk 1 true true true)
      [] 0 1 (-1)).2.2 rfl,
   pipeline_flags_monotone.2.2.2.2.2.2.2.2.2.1 (freshContext 1) [] 1 0 rfl⟩

/-- Claim C5: for a valid thread count, `pcm_to_mel` maps the engine
sentinel `-1` to `UnableToCalculateSpectrogram` leaving the state
unchanged, `0` to success setting `spectrogram_initialized`, and every
other sentinel to `GenericError` carrying the raw code, leaving the state
unchanged; these three cases cover all sentinels. -/
theorem pcm_to_mel_sentinel_mapping (self : WhisperContext)
    (pcm : List Float) (threads : Nat) (engineRet : Int)
    (ht : 1 ≤ threads) :
    (engineRet = -1 →
      (self.pcm_to_mel pcm threads engineRet).ret
          = .err .UnableToCalculateSpectrogram ∧
      (self.pcm_to_mel pcm threads engineRet).state = self) ∧
    (engineRet = 0 →
      (self.pcm_to_mel pcm threads engineRet).ret = .ok () ∧
      (self.pcm_to_mel pcm threads engineRet).state
          = { self with spectrogram_initialized := true }) ∧
    (engineRet ≠ -1 → engineRet ≠ 0 →
      (self.pcm_to_mel pcm threads engineRet).ret
          = .err (.GenericError engineRet) ∧
      (self.pcm_to_mel pcm threads engineRet).state = self) := by
  have h0 : ¬ threads < 1 := by omega
  refine ⟨fun h => ?_, fun h => ?_, fun h1 h2 => ?_⟩
  · simp [WhisperContext.pcm_to_mel, h0, h]
  · simp [WhisperContext.pcm_to_mel, h0, h]
  · simp [WhisperContext.pcm_to_mel, h0, h1, h2]

/-- Witness for C5 at concrete inputs. -/
theorem pcm_to_mel_sentinel_mapping_w :
    ((freshContext 1).pcm_to_mel [] 1 0).ret = .ok () ∧
    ((freshContext 1).pcm_to_mel [] 1 (-1)).ret
        = .err .UnableToCalculateSpectrogram ∧
    ((freshContext 1).pcm_to_mel [] 1 3).ret = .err (.GenericError 3) :=
  ⟨((pcm_to_mel_sentinel_mapping (freshContext 1) [] 1 0
      (by decide)).2.1 rfl).1,
   ((pcm_to_mel_sentinel_mapping (freshContext 1) [] 1 (-1)
      (by decide)).1 rfl).1,
   ((pcm_to_mel_sentinel_mapping (freshContext 1) [] 1 3
      (by decide)).2.2 (by decide) (by decide)).1⟩

/-- Claim C6: `full` and `full_parallel` translate the engine sentinel
exhaustively: `-1` to `UnableToCalculateSpectrogram`, `7` to
`FailedToEncode`, `8` to `FailedToDecode`, `0` to success, and every other
code to `GenericError` carrying that code; so no raw sentinel escapes
untranslated on an error path. -/
theorem full_sentinel_mapping (self : WhisperContext) (params : FullParams)
    (data : List Float) (n_processors engineRet : Int) :
    ((engineRet = -1 →
        (self.full params data engineRet).ret
            = .err .UnableToCalculateSpectrogram) ∧
     (engineRet = 7 →
        (self.full params data engineRet).ret = .err .FailedToEncode) ∧
     (engineRet = 8 →
        (self.full params data engineRet).ret = .err .FailedToDecode) ∧
     (engineRet = 0 → (self.full params data engineRet).ret = .ok 0) ∧
     (engineRet ≠ -1 → engineRet ≠ 7 → engineRet ≠ 8 → engineRet ≠ 0 →
        (self.full params data engineRet).ret
            = .err (.GenericError engineRet))) ∧
    ((engineRet = -1 →
        (self.full_parallel params data n_processors engineRet).ret
            = .err .UnableToCalculateSpectrogram) ∧
     (engineRet = 7 →
        (self.full_parallel params data n_processors engineRet).ret
            = .err .FailedToEncode) ∧
     (engineRet = 8 →
        (self.full_parallel params data n_processors engineRet).ret
            = .err .FailedToDecode) ∧
     (engineRet = 0 →
        (self.full_parallel params data n_processors engineRet).ret
            = .ok 0) ∧
     (engineRet ≠ -1 → engineRet ≠ 7 → engineRet ≠ 8 → engineRet ≠ 0 →
        (self.full_parallel params data n_processors engineRet).ret
            = .err (.GenericError engineRet))) := by
  refine ⟨⟨fun h => ?_, fun h => ?_, fun h => ?_, fun h => ?_,
           fun h1 h2 h3 h4 => ?_⟩,
          ⟨fun h => ?_, fun h => ?_, fun h => ?_, fun h => ?_,
           fun h1 h2 h3 h4 => ?_⟩⟩ <;>
    simp_all [WhisperContext.full, WhisperContext.full_parallel]

/-- Witness for C6 at concrete inputs. -/
theorem full_sentinel_mapping_w :
    ((freshContext 1).full ⟨0⟩ [] 7).ret = .err .FailedToEncode ∧
    ((freshContext 1).full ⟨0⟩ [] 0).ret = .ok 0 ∧
    ((freshContext 1).full_parallel ⟨0⟩ [] 2 8).ret = .err .FailedToDecode ∧
    ((freshContext 1).full_parallel ⟨0⟩ [] 2 5).ret
        = .err (.GenericError 5) :=
  ⟨(full_sentinel_mapping (freshContext 1) ⟨0⟩ [] 2 7).1.2.1 rfl,
   (full_sentinel_mapping (freshContext 1) ⟨0⟩ [] 2 0).1.2.2.2.1 rfl,
   (full_sentinel_mapping (freshContext 1) ⟨0⟩ [] 2 8).2.2.2.1 rfl,
   (full_sentinel_mapping (freshContext 1) ⟨0⟩ [] 2 5).2.2.2.2.2
      (by decide) (by decide) (by decide) (by decide)⟩

/-- `getD` of a mapped range picks out the function value at an in-range
index. -/
theorem getD_map_range {α : Type} (n i : Nat) (f : Nat → α) (d : α)
    (h : i < n) : (((List.range n).map f).getD i d) = f i := by
  simp [List.getD_eq_getElem?_getD, List.getElem?_map, List.getElem?_range, h]

/-- Claim C7: `lang_detect` pre-sizes its probability vector to the engine
language-count constant (`get_lang_max_id() as usize + 1`); every `Ok`
result has exactly that length, which also equals the engine-reported
count (cast to `usize`); and when the engine reports any count other than
`-1` or the pre-sized length, the call does not return normally — it hits
the fatal assertion/abort path. -/
theorem lang_detect_length_contract (self : WhisperContext)
    (offset_ms threads : Nat) (langMaxId engineRet : Int)
    (written : Nat → Float) :
    (∀ v,
      (self.lang_detect offset_ms threads langMaxId engineRet written).ret
          = .ok v →
      v.length = usizeOfInt langMaxId + 1 ∧
      usizeOfInt engineRet = v.length) ∧
    (self.spectrogram_initialized = true → 1 ≤ threads → engineRet ≠ -1 →
      usizeOfInt engineRet ≠ usizeOfInt langMaxId + 1 →
      (self.lang_detect offset_ms threads langMaxId engineRet written).ret
          = .abort) := by
  constructor
  · intro v hv
    unfold WhisperContext.lang_detect at hv
    split_ifs at hv with h1 h2 h3 h4
    all_goals simp at hv
    rw [← hv]
    simp [h4]
  · intro hs hth hne hlen
    have h0 : ¬ threads < 1 := by omega
    simp [WhisperContext.lang_detect, hs, h0, hne, hlen]

/-- Witness for C7 at concrete inputs: engine constant 98, reported count
99 (matching, `Ok` of length 99) and reported count 5 (mismatch, fatal
abort path). -/
theorem lang_detect_length_contract_w :
    ((List.range (usizeOfInt 98 + 1)).map
        (fun _ => (0.0 : Float))).length = usizeOfInt 98 + 1 ∧
    usizeOfInt 99 = ((List.range (usizeOfInt 98 + 1)).map
        (fun _ => (0.0 : Float))).length ∧
    ((WhisperContext.mk 1 true false false).lang_detect 0 1 98 5
        (fun _ => 0.0)).ret = .abort :=
  ⟨((lang_detect_length_contract (WhisperContext.mk 1 true false false) 0 1
      98 99 (fun _ => 0.0)).1
      ((List.range (usizeOfInt 98 + 1)).map (fun _ => (0.0 : Float)))
      rfl).1,
   ((lang_detect_length_contract (WhisperContext.mk 1 true false false) 0 1
      98 99 (fun _ => 0.0)).1
      ((List.range (usizeOfInt 98 + 1)).map (fun _ => (0.0 : Float)))
      rfl).2,
   (lang_detect_length_contract (WhisperContext.mk 1 true false false) 0 1
      98 5 (fun _ => 0.0)).2 rfl (by decide) (by decide) (by decide)⟩

/-- Claim C8: with `spectrogram_initialized` true, `get_logits` returns
the `NullPointer` error when the engine's logits pointer is null — and the
result then does not depend on the buffer contents at all (never
dereferenced).  Otherwise it returns a freshly built matrix with exactly
`full_n_tokens(segment)` rows (as a natural; equal to the reported count
whenever that count is nonnegative), each row of exactly `n_vocab`
columns, whose element `(i, j)` is the engine buffer value at row-major
offset `i * n_vocab + j`; the context state is unchanged. -/
theorem get_logits_spec (self : WhisperContext) (segment : Int)
    (buffer : Int → Float) (n_vocab n_tokens : Int)
    (hs : self.spectrogram_initialized = true) :
    ((self.get_logits segment true buffer n_vocab n_tokens).ret
        = .err .NullPointer) ∧
    (∀ buffer2, self.get_logits segment true buffer n_vocab n_tokens
        = self.get_logits segment true buffer2 n_vocab n_tokens) ∧
    ((self.get_logits segment false buffer n_vocab n_tokens).ret
        = .ok (buildLogits buffer n_vocab n_tokens)) ∧
    ((self.get_logits segment false buffer n_vocab n_tokens).state
        = self) ∧
    ((buildLogits buffer n_vocab n_tokens).length = n_tokens.toNat) ∧
    (0 ≤ n_tokens →
      (((buildLogits buffer n_vocab n_tokens).length : Int) = n_tokens)) ∧
    (∀ row ∈ buildLogits buffer n_vocab n_tokens,
      row.length = n_vocab.toNat) ∧
    (∀ i j, i < n_tokens.toNat → j < n_vocab.toNat →
      ∀ (r : List Float) (d : Float),
      (((buildLogits buffer n_vocab n_tokens).getD i r).getD j d)
          = buffer ((i : Int) * n_vocab + (j : Int))) := by
  refine ⟨?_, ?_, ?_, ?_, ?_, ?_, ?_, ?_⟩
  · simp [WhisperContext.get_logits, hs]
  · intro buffer2
    simp [WhisperContext.get_logits, hs]
  · simp [WhisperContext.get_logits, hs]
  · simp [WhisperContext.get_logits, hs]
  · simp only [buildLogits, List.length_map, List.length_range]
  · intro h
    simp only [buildLogits, List.length_map, List.length_range]
    exact Int.toNat_of_nonneg h
  · intro row hrow
    simp only [buildLogits, List.mem_map, List.mem_range] at hrow
    obtain ⟨i, _, rfl⟩ := hrow
    simp only [List.length_map, List.length_range]
  · intro i j hi hj r d
    unfold buildLogits
    rw [getD_map_range _ _ _ _ hi, getD_map_range _ _ _ _ hj]

/-- Witness for C8 at concrete inputs: a 1x2 matrix read from a buffer. -/
theorem get_logits_spec_w :
    ((WhisperContext.mk 1 true false false).get_logits 0 true
        (fun _ => 0.0) 2 1).ret = .err .NullPointer ∧
    (((buildLogits (fun _ => 0.0) 2 1).getD 0 []).getD 1 1.0) = 0.0 :=
  ⟨(get_logits_spec (WhisperContext.mk 1 true false false) 0
      (fun _ => 0.0) 2 1 rfl).1,
   (get_logits_spec (WhisperContext.mk 1 true false false) 0
      (fun _ => 0.0) 2 1 rfl).2.2.2.2.2.2.2 0 1 (by decide) (by decide)
      [] 1.0⟩

/-- Claim C9: `full` and `full_parallel` never touch the pipeline flags —
the context state is returned unchanged for every configuration, sample
slice and engine sentinel; consequently, on a freshly created context,
even after a (successful or not) `full` run, `encode` still fails with
`SpectrogramNotInitialized` and `decode` still fails with
`EncodeNotComplete`. -/
theorem full_preserves_flags :
    (∀ (self : WhisperContext) (params : FullParams) (data : List Float)
        (engineRet : Int),
      (self.full params data engineRet).state = self) ∧
    (∀ (self : WhisperContext) (params : FullParams) (data : List Float)
        (n_processors engineRet : Int),
      (self.full_parallel params data n_processors engineRet).state
          = self) ∧
    (∀ (handle : Nat) (params : FullParams) (data : List Float)
        (engineRet engineRet2 : Int) (offset threads : Nat)
        (tokens : List Int) (n_past : Nat),
      ((((freshContext handle).full params data engineRet).state).encode
          offset threads engineRet2).ret
          = .err .SpectrogramNotInitialized ∧
      ((((freshContext handle).full params data engineRet).state).decode
          tokens n_past threads engineRet2).ret
          = .err .EncodeNotComplete) := by
  refine ⟨fun self params data engineRet => ?_,
          fun self params data n_processors engineRet => ?_,
          fun handle params data engineRet engineRet2 offset threads tokens
            n_past => ?_⟩
  · unfold WhisperContext.full
    split_ifs <;> rfl
  · unfold WhisperContext.full_parallel
    split_ifs <;> rfl
  · have hstate :
        ((freshContext handle).full params data engineRet).state
          = freshContext handle := by
      unfold WhisperContext.full
      split_ifs <;> rfl
    rw [hstate]
    exact ⟨by simp [WhisperContext.encode, freshContext],
           by simp [WhisperContext.decode, freshContext]⟩

/-- Claim C10: `WhisperContext::new` on a path containing a NUL byte
fails with the C-string conversion error before any native call; on a
NUL-free path it returns the initialization error exactly when the engine
hands back a null handle, and on success the returned context holds the
non-null handle with all three pipeline flags false. -/
theorem new_spec (path : List Nat) (engineHandle : Nat) :
    (path.contains 0 = true →
      WhisperContext.new path engineHandle
        = { ret := .err .NulError, engineCalled := false }) ∧
    (path.contains 0 = false → engineHandle = 0 →
      WhisperContext.new path engineHandle
        = { ret := .err .InitError, engineCalled := true }) ∧
    (path.contains 0 = false →
      ((WhisperContext.new path engineHandle).ret = .err .InitError ↔
        engineHandle = 0)) ∧
    (path.contains 0 = false → engineHandle ≠ 0 →
      WhisperContext.new path engineHandle
        = { ret := .ok (freshContext engineHandle), engineCalled := true } ∧
      (freshContext engineHandle).ctx = engineHandle ∧
      (freshContext engineHandle).spectrogram_initialized = false ∧
      (freshContext engineHandle).encode_complete = false ∧
      (freshContext engineHandle).decode_once = false) := by
  refine ⟨fun h => ?_, fun h h0 => ?_, fun h => ?_, fun h h0 => ?_⟩
  · unfold WhisperContext.new
    rw [if_pos h]
  · have hc : ¬ path.contains 0 = true := by
      rw [h]
      exact Bool.false_ne_true
    unfold WhisperContext.new
    rw [if_neg hc, if_pos h0]
  · have hc : ¬ path.contains 0 = true := by
      rw [h]
      exact Bool.false_ne_true
    unfold WhisperContext.new
    rw [if_neg hc]
    rcases Nat.eq_zero_or_pos engineHandle with h0 | h0
    · rw [if_pos h0]
      simp [h0]
    · have hne : engineHandle ≠ 0 := by omega
      rw [if_neg hne]
      simp [hne]
  · refine ⟨?_, rfl, rfl, rfl, rfl⟩
    have hc : ¬ path.contains 0 = true := by
      rw [h]
      exact Bool.false_ne_true
    unfold WhisperContext.new
    rw [if_neg hc, if_neg h0]

/-- Witness for C10 at concrete inputs: a path with a NUL byte, a null
engine handle, and a successful construction. -/
theorem new_spec_w :
    WhisperContext.new [0] 7
        = { ret := .err .NulError, engineCalled := false } ∧
    WhisperContext.new [104, 105] 0
        = { ret := .err .InitError, engineCalled := true } ∧
    WhisperContext.new [104, 105] 7
        = { ret := .ok (freshContext 7), engineCalled := true } :=
  ⟨(new_spec [0] 7).1 rfl,
   (new_spec [104, 105] 0).2.1 rfl rfl,
   ((new_spec [104, 105] 7).2.2.2 rfl (by decide)).1⟩

end WhisperRs
